import Mathlib

/-!
Shallow embedding of the SIRQ charging-station simulator
(`src/config.py`, `src/agents.py`, `src/model.py`).

Modelling conventions:
- Python floats are modelled as exact rationals (`ℚ`).  `round(x, n)` is
  modelled as exact rational rounding to `n` decimal places with ties away
  from the floor (`pyRound`); no verified claim depends on the tie case of
  Python's float banker rounding.
- Python dictionaries with a fixed default key set (`DEFAULT_CONFIG` merged
  with user overrides via `dict.update`) are modelled as a structure whose
  fields carry the default values; keys that are *absent* from the defaults
  (`enable_smart_pricing`, read with `.get(…, False)`, and
  `surge_sensitivity` / `max_price_cap`, read with `[..]`) are modelled as a
  `Bool` defaulting to `false` and as `Option ℚ` defaulting to `none`.
  A user override is a structure literal overriding some defaults, which is
  exactly the merged dictionary the constructor builds.
- A failing dictionary subscript (`KeyError`) is modelled as
  `Except SimError`, carrying the missing key.
- The two random sources of the program are modelled explicitly:
  `model.random` (a per-model `random.Random` seeded in the constructor) and
  numpy's *process-global* generator (`np.random.seed(seed)` in the
  constructor, drawn from by `np.random.choice/uniform/randint`).  Each
  uniform draw is modelled as a rational in `[0,1)` supplied by a stream;
  the per-model source supplies one arrival coin per tick and one agent
  activation order per tick (mesa's `RandomActivation` shuffle), the global
  numpy source is a cursor into a single shared stream, threaded through
  `step` and *reset* by the constructor, exactly as `np.random.seed` resets
  the global generator.
- `mesa.space.MultiGrid` and the `color` / `border` profile fields are
  visual-only (never read by the engine logic) and are omitted.
- Unseeded construction (`seed=None`) is not modelled; every claim below is
  about seeded runs.
-/

/-- A cell value of one of the two output tables (`agent_log` rows and
`system_log` rows are Python dicts mixing numbers and strings). -/
inductive LogVal where
  | num (q : ℚ)
  | str (s : String)
deriving DecidableEq, Repr

/-- One output-table row, as the literal key/value dictionary the source
appends (`model.py`, `log_departure` and `_log_system_state`). -/
abbrev Row := List (String × LogVal)

/-- A Python `KeyError` raised by a failing dictionary subscript. -/
inductive SimError where
  | keyError (key : String)
deriving DecidableEq, Repr

/-- Result of a fallible piece of the tick pipeline. -/
abbrev Exc := Except SimError

/-- Dictionary subscript `d[key]`: `none` raises `KeyError(key)`. -/
def getKey {α : Type} (o : Option α) (key : String) : Exc α :=
  match o with
  | some v => .ok v
  | none => .error (.keyError key)

/-- Python `round(x, n)` on the simulator's quantities, modelled as exact
rational rounding to `n` decimal places. -/
def pyRound (q : ℚ) (n : ℕ) : ℚ :=
  ((round (q * (10 : ℚ) ^ n) : ℤ) : ℚ) / (10 : ℚ) ^ n

/-- The merged run configuration: `DEFAULT_CONFIG` (`src/config.py`, lines
4-26) possibly overridden by `user_config` (`model.py`, lines 18-21).  The
field defaults are the literal `DEFAULT_CONFIG` entries; the last three
fields model keys that `DEFAULT_CONFIG` does *not* define. -/
structure Config where
  charger_power : ℚ := 150
  battery_capacity : ℚ := 500
  price_per_kwh : ℚ := 1/2
  base_service_fee : ℚ := 10
  auction_increment : ℚ := 5
  preemption_premium : ℚ := 6/5
  prob_critical : ℚ := 1/5
  prob_standard : ℚ := 3/5
  prob_economy : ℚ := 1/5
  traffic_multiplier : ℚ := 1
  /-- Not in `DEFAULT_CONFIG`; read via `config.get("enable_smart_pricing", False)`. -/
  enable_smart_pricing : Bool := false
  /-- Not in `DEFAULT_CONFIG`; read via `config["surge_sensitivity"]`. -/
  surge_sensitivity : Option ℚ := none
  /-- Not in `DEFAULT_CONFIG`; read via `config["max_price_cap"]`. -/
  max_price_cap : Option ℚ := none
deriving DecidableEq, Repr

/-- The literal `DEFAULT_CONFIG` dictionary. -/
def DEFAULT_CONFIG : Config := {}

/-- One entry of `TRUCK_PROFILES` (`src/config.py`, lines 32-84).  The
visual fields (`color`, `border`) are omitted.  No entry of the shipped
table defines the `max_price_tolerance` key, hence the `Option` default. -/
structure TruckProfile where
  vot_range : ℚ × ℚ
  price_sensitivity : ℚ
  patience : ℕ
  urgency_range : ℚ × ℚ
  /-- Key referenced by `_spawn_traffic` but defined by no shipped profile. -/
  max_price_tolerance : Option ℚ := none
deriving DecidableEq, Repr

/-- The `TRUCK_PROFILES` dictionary, keyed by the profile tag string;
an unknown tag is a `KeyError` at the use sites. -/
def TRUCK_PROFILES (tag : String) : Option TruckProfile :=
  if tag = "CRITICAL" then
    some { vot_range := (150, 300), price_sensitivity := 1/10,
           patience := 240, urgency_range := (4/5, 1) }
  else if tag = "STANDARD" then
    some { vot_range := (50, 80), price_sensitivity := 1/2,
           patience := 120, urgency_range := (2/5, 7/10) }
  else if tag = "ECONOMY" then
    some { vot_range := (15, 30), price_sensitivity := 9/10,
           patience := 45, urgency_range := (0, 3/10) }
  else none

/-- The patience limit the table assigns to a tag (0 for unknown tags; the
engine only ever stores the three known tags in an agent). -/
def patienceOf (tag : String) : ℕ :=
  ((TRUCK_PROFILES tag).map (·.patience)).getD 0

/-- One `TruckAgent` (`src/agents.py`).  The mesa back-reference to the
model is replaced by passing the model explicitly to the agent's steps;
`target_soc` is fixed at 85 by `__init__`. -/
structure TruckAgent where
  unique_id : ℕ
  profile_type : String
  config : Config
  value_of_time : ℚ
  soc : ℚ
  target_soc : ℚ := 85
  wait_time : ℕ := 0
  status : String := "Queuing"
  bid : ℚ
deriving DecidableEq, Repr

/-- The process-global numpy generator: a stream of unit-interval rationals
together with the cursor position (`np.random.seed` resets the cursor to a
fresh seed-determined stream). -/
structure NpState where
  f : ℕ → ℚ
  idx : ℕ

/-- One draw from the global numpy stream. -/
def NpState.draw (np : NpState) : ℚ × NpState :=
  (np.f np.idx, { np with idx := np.idx + 1 })

/-- The `ChargingStationModel` state (`src/model.py`, lines 11-43) plus the
per-model seeded random source (`self.random`), modelled as one arrival
coin and one activation order per tick index. -/
structure ChargingStationModel where
  num_chargers : ℤ
  strategy : String
  config : Config
  charging_spots : ℤ
  steps : ℕ := 0
  current_id : ℕ := 0
  kpi_energy_sold : ℚ := 0
  kpi_revenue : ℚ := 0
  kpi_preemptions : ℕ := 0
  kpi_failed_critical : ℕ := 0
  kpi_balked_agents : ℕ := 0
  current_price : ℚ
  agents : List TruckAgent := []
  agent_log : List Row := []
  system_log : List Row := []
  ownCoins : ℕ → ℚ
  ownOrder : ℕ → List ℕ
  running : Bool := true

/-- Replace every agent with the given id by `a` (Python mutates the shared
object; ids are unique in every reachable state). -/
def updateAgent (ags : List TruckAgent) (a : TruckAgent) : List TruckAgent :=
  ags.map (fun b => if b.unique_id = a.unique_id then a else b)

/-- Set the status of the agent with the given id (`truck.status = …`). -/
def setStatus (ags : List TruckAgent) (id : ℕ) (st : String) : List TruckAgent :=
  ags.map (fun b => if b.unique_id = id then { b with status := st } else b)

/-- `self.schedule.remove(agent)`. -/
def removeAgent (ags : List TruckAgent) (id : ℕ) : List TruckAgent :=
  ags.filter (fun b => b.unique_id ≠ id)

/-- The departure record `ChargingStationModel.log_departure` appends
(`model.py`, lines 161-170).  `TruckAgent` never sets an `urgency`
attribute, so the `hasattr` guard always yields the `else 0` value. -/
def departureRow (a : TruckAgent) (reason : String) (strategy : String) : Row :=
  [("ID", .num a.unique_id),
   ("Profile", .str a.profile_type),
   ("Urgency", .num 0),
   ("Value_of_Time", .num (pyRound a.value_of_time 2)),
   ("Bid", .num (pyRound a.bid 2)),
   ("Outcome", .str reason),
   ("Wait_Time", .num a.wait_time),
   ("Strategy", .str strategy)]

/-- `ChargingStationModel.log_departure` (`model.py`, lines 157-170). -/
def log_departure (m : ChargingStationModel) (a : TruckAgent) (reason : String) :
    ChargingStationModel :=
  let m :=
    if (reason = "Left (Impatient)" ∨ reason = "Preempted") ∧ a.profile_type = "CRITICAL"
    then { m with kpi_failed_critical := m.kpi_failed_critical + 1 }
    else m
  { m with agent_log := m.agent_log ++ [departureRow a reason m.strategy] }

/-- Stable insertion of an agent into a list sorted by `le` (an agent is
placed before the first element it `le`-relates to, so equal keys keep
their original order, matching Python's stable `sorted`). -/
def insertSorted (le : TruckAgent → TruckAgent → Bool) (x : TruckAgent) :
    List TruckAgent → List TruckAgent
  | [] => [x]
  | y :: ys => if le x y then x :: y :: ys else y :: insertSorted le x ys

/-- Stable sort of an agent list (Python's `sorted(…, key=…)`). -/
def sortAgents (le : TruckAgent → TruckAgent → Bool) (l : List TruckAgent) :
    List TruckAgent :=
  l.foldr (insertSorted le) []

/-- `TruckAgent.__init__` plus `_calculate_initial_bid` (`src/agents.py`,
lines 6-50): consumes three global numpy draws, in source order — the
value-of-time `np.random.uniform(vot_min, vot_max)`, the initial
state-of-charge `np.random.randint(10, 30)` and the bid noise
`np.random.uniform(0.9, 1.1)`.  The queue-length heuristic counts the
Queuing agents of the model *before* this agent is added. -/
def TruckAgent.create (unique_id : ℕ) (m : ChargingStationModel)
    (profile_data : TruckProfile) (profile_type : String) (np : NpState) :
    TruckAgent × NpState :=
  let (u1, np) := np.draw
  let vot := profile_data.vot_range.1 + u1 * (profile_data.vot_range.2 - profile_data.vot_range.1)
  let (u2, np) := np.draw
  let soc : ℚ := 10 + (⌊u2 * 20⌋ : ℤ)
  let base_fee := m.config.base_service_fee
  let queue_len : ℕ := (m.agents.filter (fun a => a.status = "Queuing")).length
  let estimated_wait_hours : ℚ := (queue_len * 15 : ℚ) / 60
  let estimated_wait_hours := if estimated_wait_hours < 1/10 then 1/10 else estimated_wait_hours
  let rational_bid := base_fee + vot * estimated_wait_hours
  let (u3, np) := np.draw
  let noise := 9/10 + u3 * (2/10)
  ({ unique_id := unique_id, profile_type := profile_type, config := m.config,
     value_of_time := vot, soc := soc, bid := pyRound (rational_bid * noise) 2 }, np)

/-- `ChargingStationModel._update_smart_pricing` (`model.py`, lines 62-85). -/
def update_smart_pricing (m : ChargingStationModel) : Exc ChargingStationModel :=
  if m.config.enable_smart_pricing = false then
    .ok { m with current_price := m.config.price_per_kwh }
  else do
    let active : ℕ := (m.agents.filter (fun a => a.status = "Charging")).length
    let queued : ℕ := (m.agents.filter (fun a => a.status = "Queuing")).length
    let total_load : ℚ := (active + queued : ℕ)
    let capacity : ℚ := (max m.num_chargers 1 : ℤ)
    let utilization := total_load / capacity
    let surge_factor ← getKey m.config.surge_sensitivity "surge_sensitivity"
    let base_price := m.config.price_per_kwh
    let new_price := base_price * (1 + surge_factor * utilization)
    let cap ← getKey m.config.max_price_cap "max_price_cap"
    .ok { m with current_price := min new_price cap }

/-- The per-tick arrival probability of `_spawn_traffic` (`model.py`, lines
88-99): five time-of-day buckets times the traffic multiplier. -/
def spawnProb (m : ChargingStationModel) : ℚ :=
  let minute := m.steps % 1440
  let hour := minute / 60
  let prob : ℚ :=
    if (6 ≤ hour ∧ hour < 10) ∨ (15 ≤ hour ∧ hour < 19) then 35/100
    else if hour < 6 then 5/100
    else 15/100
  prob * m.config.traffic_multiplier

/-- Whether this tick's `self.random.random() < prob` coin lands an arrival. -/
def arrivalDrawn (m : ChargingStationModel) : Bool :=
  m.ownCoins m.steps < spawnProb m

/-- The three-way categorical draw `np.random.choice(choices, p=weights)`
(`model.py`, lines 102-112), modelled by inverse-CDF on one unit draw; the
weights are the configured probabilities normalized by their sum.
(Python raises `ZeroDivisionError` when the sum is zero; the engine is
never run with an all-zero mix and that case is not modelled: `ℚ` division
by zero yields 0, which selects `"ECONOMY"`.) -/
def chooseProfile (cfg : Config) (u : ℚ) : String :=
  let total := cfg.prob_critical + cfg.prob_standard + cfg.prob_economy
  if u < cfg.prob_critical / total then "CRITICAL"
  else if u < (cfg.prob_critical + cfg.prob_standard) / total then "STANDARD"
  else "ECONOMY"

/-- `ChargingStationModel._spawn_traffic` (`model.py`, lines 87-125).
Draw order matches the source: the per-model arrival coin, then (only on an
arrival) the global numpy profile choice, then the three numpy draws of
`TruckAgent.__init__`.  With smart pricing enabled the balking check
subscripts the sampled profile's `max_price_tolerance` key before any agent
is created. -/
def spawn_traffic (m : ChargingStationModel) (np : NpState) :
    Exc (ChargingStationModel × NpState) :=
  if arrivalDrawn m then do
    let (u, np) := np.draw
    let profile := chooseProfile m.config u
    let prof ← getKey (TRUCK_PROFILES profile) profile
    if m.config.enable_smart_pricing = true then do
      let tolerance ← getKey prof.max_price_tolerance "max_price_tolerance"
      if m.current_price > tolerance then
        .ok ({ m with kpi_balked_agents := m.kpi_balked_agents + 1 }, np)
      else do
        let id := m.current_id + 1
        let (agent, np) := TruckAgent.create id m prof profile np
        .ok ({ m with current_id := id, agents := m.agents ++ [agent] }, np)
    else do
      let id := m.current_id + 1
      let (agent, np) := TruckAgent.create id m prof profile np
      .ok ({ m with current_id := id, agents := m.agents ++ [agent] }, np)
  else .ok (m, np)

/-- The `while self.charging_spots > 0 and queue` admission loop shared by
both policies (`model.py`, lines 129-132 and 138-141): pop the head of the
sorted queue, promote it, decrement the free-slot counter; returns the
model and the remaining queue. -/
def promoteLoop (m : ChargingStationModel) :
    List TruckAgent → ChargingStationModel × List TruckAgent
  | [] => (m, [])
  | t :: rest =>
    if m.charging_spots > 0 then
      promoteLoop
        { m with agents := setStatus m.agents t.unique_id "Charging",
                 charging_spots := m.charging_spots - 1 } rest
    else (m, t :: rest)

/-- `ChargingStationModel._logic_fifo` (`model.py`, lines 127-132). -/
def logic_fifo (m : ChargingStationModel) : ChargingStationModel :=
  let queue := sortAgents (fun x y => x.unique_id ≤ y.unique_id)
    (m.agents.filter (fun a => a.status = "Queuing"))
  (promoteLoop m queue).1

/-- `ChargingStationModel._logic_sirq` (`model.py`, lines 134-155).  Note
two facts of the source reproduced here exactly: the `chargers` snapshot is
taken *before* the admission loop, and the preemption branch only logs the
victim's departure, bumps the preemption counter and sets the challenger to
Charging — it neither removes the victim nor touches `charging_spots`. -/
def logic_sirq (m : ChargingStationModel) : ChargingStationModel :=
  let queue := sortAgents (fun x y => y.bid ≤ x.bid)
    (m.agents.filter (fun a => a.status = "Queuing"))
  let chargers := m.agents.filter (fun a => a.status = "Charging")
  let pr := promoteLoop m queue
  match pr.2, sortAgents (fun x y => x.bid ≤ y.bid) chargers with
  | highest_bidder :: _, victim :: _ =>
    let m := pr.1
    let premium := m.config.preemption_premium
    if highest_bidder.bid > victim.bid * premium ∧ victim.profile_type ≠ "CRITICAL" then
      let m := log_departure m victim "Preempted"
      let m := { m with kpi_preemptions := m.kpi_preemptions + 1 }
      { m with agents := setStatus m.agents highest_bidder.unique_id "Charging" }
    else m
  | _, _ => pr.1

/-- `TruckAgent._charge` (`src/agents.py`, lines 74-91), acting on the
model that owns the agent.  Revenue is credited at the *configured base
price* `config["price_per_kwh"]`; `kpi_energy_sold` is not touched (the
source never updates it). -/
def charge (m : ChargingStationModel) (a : TruckAgent) : ChargingStationModel :=
  let power := a.config.charger_power
  let capacity := a.config.battery_capacity
  let kwh_added := power / 60
  let efficiency : ℚ := if a.soc < 80 then 1 else 1/2
  let real_kwh := kwh_added * efficiency
  let real_soc := real_kwh / capacity * 100
  let a' := { a with soc := a.soc + real_soc }
  let m := { m with agents := updateAgent m.agents a',
                    kpi_revenue := m.kpi_revenue + real_kwh * a.config.price_per_kwh }
  if a'.soc ≥ a'.target_soc then
    let m := log_departure m a' "Completed"
    { m with charging_spots := m.charging_spots + 1,
             agents := removeAgent m.agents a'.unique_id }
  else m

/-- `TruckAgent._wait` (`src/agents.py`, lines 58-72): bump the wait
counter, apply the Critical panic-bid escalation, then depart impatiently
when the counter exceeds the profile's patience (looked up afresh in
`TRUCK_PROFILES` each tick, hence the `Exc`). -/
def wait (m : ChargingStationModel) (a : TruckAgent) : Exc ChargingStationModel := do
  let wt := a.wait_time + 1
  let bid' := if a.profile_type = "CRITICAL" ∧ wt % 30 = 0
              then a.bid + a.value_of_time / 4 else a.bid
  let a' := { a with wait_time := wt, bid := bid' }
  let prof ← getKey (TRUCK_PROFILES a.profile_type) a.profile_type
  if wt > prof.patience then
    let m := log_departure m a' "Left (Impatient)"
    .ok { m with agents := removeAgent m.agents a'.unique_id }
  else
    .ok { m with agents := updateAgent m.agents a' }

/-- `TruckAgent.step` (`src/agents.py`, lines 52-56) for the agent with the
given id, if it is still scheduled. -/
def stepOneAgent (m : ChargingStationModel) (id : ℕ) : Exc ChargingStationModel :=
  match m.agents.find? (fun a => a.unique_id = id) with
  | none => .ok m
  | some a =>
    if a.status = "Charging" then .ok (charge m a)
    else if a.status = "Queuing" then wait m a
    else .ok m

/-- The shuffled activation order of mesa's `RandomActivation.step`:
the per-model random source supplies a preference list of ids; ids it
mentions (restricted to live agents, first mention wins) are activated
first, then the remaining live agents in insertion order.  Every live agent
is activated exactly once each tick, whatever the supplied list. -/
def activationOrder (pref : List ℕ) (ids : List ℕ) : List ℕ :=
  let chosen := (pref.filter (fun i => ids.contains i)).dedup
  chosen ++ ids.filter (fun i => !chosen.contains i)

/-- Step every agent once in the given order. -/
def stepAgents (m : ChargingStationModel) : List ℕ → Exc ChargingStationModel
  | [] => .ok m
  | id :: rest => do
    let m' ← stepOneAgent m id
    stepAgents m' rest

/-- `self.schedule.step()`: activate every agent in shuffled order, then
advance the schedule's step counter. -/
def schedule_step (m : ChargingStationModel) : Exc ChargingStationModel := do
  let order := activationOrder (m.ownOrder m.steps) (m.agents.map (·.unique_id))
  let m' ← stepAgents m order
  .ok { m' with steps := m'.steps + 1 }

/-- The tick-snapshot row `_log_system_state` appends (`model.py`, lines
172-180); these six keys are the complete column set of the timeline log. -/
def systemRow (m : ChargingStationModel) : Row :=
  [("Step", .num m.steps),
   ("Total_Revenue", .num (pyRound m.kpi_revenue 2)),
   ("Queue_Length", .num ((m.agents.filter (fun a => a.status = "Queuing")).length : ℕ)),
   ("Strategy", .str m.strategy),
   ("Current_Price", .num (pyRound m.current_price 2)),
   ("Balked_Agents", .num m.kpi_balked_agents)]

/-- `ChargingStationModel._log_system_state` (`model.py`, lines 172-180). -/
def log_system_state (m : ChargingStationModel) : ChargingStationModel :=
  { m with system_log := m.system_log ++ [systemRow m] }

/-- `ChargingStationModel.step` (`model.py`, lines 45-60): pricing update,
arrival process, admission policy (an unrecognized strategy tag runs
neither), agent activation, tick snapshot. -/
def ChargingStationModel.step (m : ChargingStationModel) (np : NpState) :
    Exc (ChargingStationModel × NpState) := do
  let m ← update_smart_pricing m
  let (m, np) ← spawn_traffic m np
  let m := if m.strategy = "FIFO" then logic_fifo m
           else if m.strategy = "SIRQ" then logic_sirq m
           else m
  let m ← schedule_step m
  .ok (log_system_state m, np)

/-- `ChargingStationModel.__init__` (`model.py`, lines 11-43) for a seeded
run.  The constructor performs no validation whatsoever: any charger count
(including values below 1) and any strategy tag are accepted.  Seeding
`self.random` installs the per-model streams; `np.random.seed(seed)` resets
the process-global numpy stream, so the returned `NpState` is the freshly
seeded global generator. -/
def ChargingStationModel.init (num_chargers : ℤ) (strategy : String) (seed : ℤ)
    (config : Config) (gCoins : ℤ → ℕ → ℚ) (gOrder : ℤ → ℕ → List ℕ)
    (gNp : ℤ → ℕ → ℚ) : ChargingStationModel × NpState :=
  ({ num_chargers := num_chargers, strategy := strategy, config := config,
     charging_spots := num_chargers, current_price := config.price_per_kwh,
     ownCoins := gCoins seed, ownOrder := gOrder seed },
   { f := gNp seed, idx := 0 })

/-- Run `k` ticks from a state, threading the global numpy stream. -/
def runN (m : ChargingStationModel) (np : NpState) : ℕ →
    Exc (ChargingStationModel × NpState)
  | 0 => .ok (m, np)
  | k + 1 => do
    let (m', np') ← m.step np
    runN m' np' k

/-- Arrival coins all zero: an arrival is drawn every tick with the default
night-time probability 0.05 (every draw lies in `[0,1)`). -/
def gZero : ℤ → ℕ → ℚ := fun _ _ => 0

/-- Empty shuffle preference: agents activate in insertion order. -/
def gEmpty : ℤ → ℕ → List ℕ := fun _ _ => []

/-- A concrete seeded global numpy stream (all draws lie in `[0,1)`):
draws 0-3 make an ECONOMY agent with value-of-time 15, state-of-charge 10
and noise 1 (bid 11.50); draws 4-7 make a CRITICAL agent with value-of-time
225 and noise 1 (bid 32.50); draws 8-15 make two ECONOMY agents with
value-of-time 15 and noise 1 (bid 11.50 each). -/
def npSeqList : List ℚ :=
  [9/10, 0, 0, 1/2,  1/10, 1/2, 0, 1/2,  9/10, 0, 0, 1/2,  9/10, 0, 0, 1/2]

/-- Stream generator reading `npSeqList` (0 past the end). -/
def gNpDemo : ℤ → ℕ → ℚ := fun _ n => npSeqList.getD n 0

/-- A single-charger SIRQ station on the default configuration with the
concrete streams above. -/
def demoInit : ChargingStationModel × NpState :=
  ChargingStationModel.init 1 "SIRQ" 42 DEFAULT_CONFIG gZero gEmpty gNpDemo

/-- The demo station run for `k` ticks. -/
def demoRun (k : ℕ) : Exc (ChargingStationModel × NpState) :=
  runN demoInit.1 demoInit.2 k

/-- The final model of a run result (`none` when the run raised). -/
def finalModel (e : Exc (ChargingStationModel × NpState)) : Option ChargingStationModel :=
  e.toOption.map Prod.fst

/-- The number of active agents with status Charging. -/
def chargingCount (m : ChargingStationModel) : ℕ :=
  (m.agents.filter (fun a => a.status = "Charging")).length

/-- The station invariant claimed by the spec:
`free_slots + |Charging| == capacity`. -/
def slotInvariantHolds (m : ChargingStationModel) : Bool :=
  m.charging_spots + (chargingCount m : ℤ) = m.num_chargers

/-- The string cell stored under a column name of a row. -/
def rowStr (r : Row) (k : String) : Option String :=
  match r.lookup k with
  | some (.str s) => some s
  | _ => none

/-- The numeric cell stored under a column name of a row. -/
def rowNum (r : Row) (k : String) : Option ℚ :=
  match r.lookup k with
  | some (.num q) => some q
  | _ => none

/-- A departure row that increments the critical-failure counter
(`log_departure`, lines 158-159): an impatient or preempted departure of a
CRITICAL agent. -/
def isCriticalFailureRow (r : Row) : Bool :=
  (rowStr r "Outcome" = some "Left (Impatient)" ∨ rowStr r "Outcome" = some "Preempted") ∧
    rowStr r "Profile" = some "CRITICAL"

/-- A Queuing agent's wait counter is at most its profile's patience limit
(the auxiliary invariant behind the patience bound). -/
def WaitWithin (a : TruckAgent) : Prop :=
  a.status = "Queuing" → a.wait_time ≤ patienceOf a.profile_type

/-- Every active agent satisfies the wait bound. -/
def QueueWaitBound (m : ChargingStationModel) : Prop :=
  ∀ a ∈ m.agents, WaitWithin a

/-- No departure record of a CRITICAL agent carries outcome Preempted. -/
def NoCriticalPreempted (log : List Row) : Prop :=
  ∀ r ∈ log, rowStr r "Outcome" = some "Preempted" → rowStr r "Profile" ≠ some "CRITICAL"

/-- Every impatient-departure record carries a wait time of exactly its
profile's patience limit plus one tick. -/
def ImpatientExact (log : List Row) : Prop :=
  ∀ r ∈ log, rowStr r "Outcome" = some "Left (Impatient)" →
    ∃ tag, rowStr r "Profile" = some tag ∧
      rowNum r "Wait_Time" = some ((patienceOf tag : ℚ) + 1)

/-- The critical-failure counter equals the number of logged critical
failures. -/
def FailCountExact (m : ChargingStationModel) : Prop :=
  m.kpi_failed_critical = (m.agent_log.filter isCriticalFailureRow).length

/-- The inductive invariant of a run, established at construction and
preserved by every successful tick. -/
def RunInv (m : ChargingStationModel) : Prop :=
  QueueWaitBound m ∧ NoCriticalPreempted m.agent_log ∧
    ImpatientExact m.agent_log ∧ FailCountExact m

/-- The departure table of a run result (empty when the run raised). -/
def agentLogOf (e : Exc (ChargingStationModel × NpState)) : List Row :=
  match e with
  | .ok (m, _) => m.agent_log
  | .error _ => []

/-- The critical-failure counter of a run result (0 when the run raised). -/
def failedCriticalOf (e : Exc (ChargingStationModel × NpState)) : ℕ :=
  match e with
  | .ok (m, _) => m.kpi_failed_critical
  | .error _ => 0

/-- Construct a station and step it `k` ticks in isolation: the global
numpy stream is consumed from the construction's own `np.random.seed`
reset, with no interleaved numpy use by anything else in the process. -/
def runSim (cap : ℤ) (strat : String) (seed : ℤ) (cfg : Config)
    (gC : ℤ → ℕ → ℚ) (gO : ℤ → ℕ → List ℕ) (gN : ℤ → ℕ → ℚ) (k : ℕ) :
    Exc (ChargingStationModel × NpState) :=
  let (m, np) := ChargingStationModel.init cap strat seed cfg gC gO gN
  runN m np k

/-- First of two identically-constructed stations sharing one process:
both constructors have run (each resetting the global numpy stream), then
the first station is stepped two ticks, consuming numpy draws 0-7. -/
def c9RunFirst : Exc (ChargingStationModel × NpState) :=
  runN demoInit.1 demoInit.2 2

/-- The second, identically-constructed station stepped two ticks *after*
the first run, consuming the global numpy stream where the first run left
it (draws 8-15), exactly as a second `ChargingStationModel` stepped later
in the same Python process would. -/
def c9RunSecond : Exc (ChargingStationModel × NpState) :=
  match c9RunFirst with
  | .ok (_, np) => runN demoInit.1 np 2
  | .error e => .error e

/-- A station constructed with capacity 0 and an unrecognized policy tag:
the constructor performs no validation, so this succeeds. -/
def invalidInit : ChargingStationModel × NpState :=
  ChargingStationModel.init 0 "TELEPATHY" 7 DEFAULT_CONFIG gZero gEmpty gNpDemo

/-- A Charging agent used by the tick-snapshot column counterexample. -/
def agentC6 : TruckAgent :=
  { unique_id := 7, profile_type := "STANDARD", config := DEFAULT_CONFIG,
    value_of_time := 60, soc := 50, bid := 20, status := "Charging" }

/-- A station state with exactly one Charging agent whose active-charger
count (1) differs from every value its tick snapshot logs. -/
def mC6 : ChargingStationModel :=
  { num_chargers := 4, strategy := "FIFO", config := DEFAULT_CONFIG,
    charging_spots := 3, steps := 5, kpi_revenue := 237/100,
    kpi_balked_agents := 2, current_price := 1/2, agents := [agentC6],
    ownCoins := fun _ => 0, ownOrder := fun _ => [] }

/-- The merged configuration of a user who enables smart pricing *and*
supplies the surge parameters the pricing formula needs. -/
def cfgSurge : Config :=
  { enable_smart_pricing := true, surge_sensitivity := some (4/5),
    max_price_cap := some (9/10) }

/-- A smart-pricing station whose pricing update succeeds; its first tick
draws an arrival (coin 0 < 0.05). -/
def surgeInit : ChargingStationModel × NpState :=
  ChargingStationModel.init 1 "SIRQ" 0 cfgSurge gZero gEmpty gNpDemo

/-- The merged configuration of a user who only sets
`enable_smart_pricing: True` on top of the defaults. -/
def cfgSmartOnly : Config := { enable_smart_pricing := true }

/-- A station whose user config only enables smart pricing: its very first
pricing update subscripts the absent `surge_sensitivity` key. -/
def smartOnlyInit : ChargingStationModel × NpState :=
  ChargingStationModel.init 1 "SIRQ" 0 cfgSmartOnly gZero gEmpty gNpDemo

/-- The error a run result raised, if any. -/
def errorOf (e : Exc (ChargingStationModel × NpState)) : Option SimError :=
  match e with
  | .ok _ => none
  | .error err => some err

/-- The tick table of a run result (empty when the run raised). -/
def systemLogOf (e : Exc (ChargingStationModel × NpState)) : List Row :=
  match e with
  | .ok (m, _) => m.system_log
  | .error _ => []

/-- A station whose first arrival coin (0.9) misses the night-time arrival
probability 0.05: its first tick spawns nothing. -/
def quietInit : ChargingStationModel × NpState :=
  ChargingStationModel.init 1 "FIFO" 3 DEFAULT_CONFIG (fun _ _ => 9/10) gEmpty gNpDemo

/-! ### Helper lemmas -/

theorem departureRow_outcome (a : TruckAgent) (reason strat : String) :
    rowStr (departureRow a reason strat) "Outcome" = some reason := rfl

theorem departureRow_profile (a : TruckAgent) (reason strat : String) :
    rowStr (departureRow a reason strat) "Profile" = some a.profile_type := rfl

theorem departureRow_wait (a : TruckAgent) (reason strat : String) :
    rowNum (departureRow a reason strat) "Wait_Time" = some (a.wait_time : ℚ) := rfl

theorem isCriticalFailureRow_departureRow (a : TruckAgent) (reason strat : String) :
    isCriticalFailureRow (departureRow a reason strat) =
      decide ((reason = "Left (Impatient)" ∨ reason = "Preempted") ∧
        a.profile_type = "CRITICAL") := by
  simp [isCriticalFailureRow, departureRow_outcome, departureRow_profile]

theorem log_departure_agents (m : ChargingStationModel) (a : TruckAgent) (reason : String) :
    (log_departure m a reason).agents = m.agents := by
  simp only [log_departure]; split <;> rfl

theorem log_departure_agent_log (m : ChargingStationModel) (a : TruckAgent) (reason : String) :
    (log_departure m a reason).agent_log =
      m.agent_log ++ [departureRow a reason m.strategy] := by
  simp only [log_departure]; split <;> rfl

theorem log_departure_failed (m : ChargingStationModel) (a : TruckAgent) (reason : String) :
    (log_departure m a reason).kpi_failed_critical =
      m.kpi_failed_critical +
        (if (reason = "Left (Impatient)" ∨ reason = "Preempted") ∧
            a.profile_type = "CRITICAL" then 1 else 0) := by
  simp only [log_departure]; split <;> simp [*]

theorem NoCriticalPreempted_append (log : List Row) (r : Row)
    (h : NoCriticalPreempted log)
    (hr : rowStr r "Outcome" = some "Preempted" → rowStr r "Profile" ≠ some "CRITICAL") :
    NoCriticalPreempted (log ++ [r]) := by
  intro x hx
  rcases List.mem_append.mp hx with hx | hx
  · exact h x hx
  · rw [List.mem_singleton.mp hx]; exact hr

theorem ImpatientExact_append (log : List Row) (r : Row)
    (h : ImpatientExact log)
    (hr : rowStr r "Outcome" = some "Left (Impatient)" →
      ∃ tag, rowStr r "Profile" = some tag ∧
        rowNum r "Wait_Time" = some ((patienceOf tag : ℚ) + 1)) :
    ImpatientExact (log ++ [r]) := by
  intro x hx
  rcases List.mem_append.mp hx with hx | hx
  · exact h x hx
  · rw [List.mem_singleton.mp hx]; exact hr

theorem filter_append_singleton (p : Row → Bool) (log : List Row) (r : Row) :
    ((log ++ [r]).filter p).length =
      (log.filter p).length + (if p r then 1 else 0) := by
  rw [List.filter_append]
  simp only [List.length_append, List.filter]
  split <;> simp_all

theorem waitWithin_of_charging (a : TruckAgent) (h : a.status = "Charging") :
    WaitWithin a := by
  intro hq; rw [h] at hq; exact absurd hq (by decide)

theorem waitBound_setStatus_charging (ags : List TruckAgent) (id : ℕ)
    (h : ∀ a ∈ ags, WaitWithin a) :
    ∀ a ∈ setStatus ags id "Charging", WaitWithin a := by
  intro b hb
  rcases List.mem_map.mp hb with ⟨c, hc, rfl⟩
  by_cases hid : c.unique_id = id
  · simp only [hid, if_pos rfl]
    exact waitWithin_of_charging _ rfl
  · simp only [if_neg hid]
    exact h c hc

theorem waitBound_removeAgent (ags : List TruckAgent) (id : ℕ)
    (h : ∀ a ∈ ags, WaitWithin a) :
    ∀ a ∈ removeAgent ags id, WaitWithin a := by
  intro b hb
  exact h b (List.mem_of_mem_filter hb)

theorem waitBound_updateAgent (ags : List TruckAgent) (x : TruckAgent)
    (h : ∀ a ∈ ags, WaitWithin a) (hx : WaitWithin x) :
    ∀ a ∈ updateAgent ags x, WaitWithin a := by
  intro b hb
  rcases List.mem_map.mp hb with ⟨c, hc, rfl⟩
  by_cases hid : c.unique_id = x.unique_id
  · simp only [hid, if_pos rfl]; exact hx
  · simp only [if_neg hid]; exact h c hc

theorem waitBound_append_new (ags : List TruckAgent) (x : TruckAgent)
    (h : ∀ a ∈ ags, WaitWithin a) (hx : WaitWithin x) :
    ∀ a ∈ ags ++ [x], WaitWithin a := by
  intro b hb
  rcases List.mem_append.mp hb with hb | hb
  · exact h b hb
  · rw [List.mem_singleton.mp hb]; exact hx

theorem RunInv_fields (m m' : ChargingStationModel)
    (hag : m'.agents = m.agents) (hlog : m'.agent_log = m.agent_log)
    (hfc : m'.kpi_failed_critical = m.kpi_failed_critical)
    (h : RunInv m) : RunInv m' := by
  obtain ⟨h1, h2, h3, h4⟩ := h
  refine ⟨?_, ?_, ?_, ?_⟩
  · unfold QueueWaitBound at h1 ⊢; rw [hag]; exact h1
  · rw [hlog]; exact h2
  · rw [hlog]; exact h3
  · unfold FailCountExact at h4 ⊢; rw [hlog, hfc]; exact h4

theorem promoteLoop_inv (q : List TruckAgent) (m : ChargingStationModel)
    (h : RunInv m) : RunInv (promoteLoop m q).1 := by
  induction q generalizing m with
  | nil => exact h
  | cons t rest ih =>
    unfold promoteLoop
    split
    · apply ih
      obtain ⟨h1, h2, h3, h4⟩ := h
      exact ⟨waitBound_setStatus_charging _ _ h1, h2, h3, h4⟩
    · exact h

theorem logic_fifo_inv (m : ChargingStationModel) (h : RunInv m) :
    RunInv (logic_fifo m) :=
  promoteLoop_inv _ _ h

theorem logic_sirq_inv (m : ChargingStationModel) (h : RunInv m) :
    RunInv (logic_sirq m) := by
  simp only [logic_sirq]
  have hp := promoteLoop_inv (sortAgents (fun x y => y.bid ≤ x.bid)
    (m.agents.filter (fun a => a.status = "Queuing"))) m h
  split
  · next hb _ victim _ _ _ =>
    split
    · next hcond =>
      obtain ⟨h1, h2, h3, h4⟩ := hp
      refine ⟨?_, ?_, ?_, ?_⟩
      · unfold QueueWaitBound at h1 ⊢
        rw [log_departure_agents]
        exact waitBound_setStatus_charging _ _ h1
      · rw [log_departure_agent_log]
        refine NoCriticalPreempted_append _ _ h2 (fun _ => ?_)
        rw [departureRow_profile]
        intro hcontr
        exact hcond.2 (Option.some_injective _ hcontr)
      · rw [log_departure_agent_log]
        refine ImpatientExact_append _ _ h3 (fun hfalse => ?_)
        rw [departureRow_outcome] at hfalse
        exact absurd (Option.some_injective _ hfalse) (by decide)
      · unfold FailCountExact at h4 ⊢
        rw [log_departure_agent_log, log_departure_failed,
          filter_append_singleton, isCriticalFailureRow_departureRow]
        simp only [decide_eq_true_eq]
        rw [h4]
    · exact hp
  · exact hp

theorem charge_inv (m : ChargingStationModel) (a : TruckAgent)
    (ha : a.status = "Charging") (h : RunInv m) : RunInv (charge m a) := by
  obtain ⟨h1, h2, h3, h4⟩ := h
  have hupd : ∀ (q : ℚ), ∀ b ∈ updateAgent m.agents { a with soc := q }, WaitWithin b :=
    fun q => waitBound_updateAgent _ _ h1 (waitWithin_of_charging _ ha)
  simp only [charge]
  split <;> split <;>
    first
      | exact ⟨fun b hb => hupd _ b hb, h2, h3, h4⟩
      | (refine ⟨?_, ?_, ?_, ?_⟩
         · unfold QueueWaitBound
           rw [log_departure_agents]
           intro b hb
           exact hupd _ b (List.mem_of_mem_filter hb)
         · rw [log_departure_agent_log]
           refine NoCriticalPreempted_append _ _ h2 (fun hfalse => ?_)
           rw [departureRow_outcome] at hfalse
           exact absurd (Option.some_injective _ hfalse) (by decide)
         · rw [log_departure_agent_log]
           refine ImpatientExact_append _ _ h3 (fun hfalse => ?_)
           rw [departureRow_outcome] at hfalse
           exact absurd (Option.some_injective _ hfalse) (by decide)
         · unfold FailCountExact at h4 ⊢
           rw [log_departure_agent_log, log_departure_failed,
             filter_append_singleton, isCriticalFailureRow_departureRow]
           simp only [decide_eq_true_eq]
           rw [h4])

theorem wait_inv (m : ChargingStationModel) (a : TruckAgent) (m' : ChargingStationModel)
    (hmem : a ∈ m.agents) (hq : a.status = "Queuing")
    (h : RunInv m) (hok : wait m a = .ok m') : RunInv m' := by
  obtain ⟨h1, h2, h3, h4⟩ := h
  rcases htp : TRUCK_PROFILES a.profile_type with _ | prof
  · simp [wait, getKey, htp, Bind.bind, Except.bind] at hok
  · have hpat : patienceOf a.profile_type = prof.patience := by
      simp [patienceOf, htp]
    simp only [wait, getKey, htp, Bind.bind, Except.bind] at hok
    split at hok
    · next hgt =>
      cases hok
      have hwt : a.wait_time = prof.patience := by
        have hle := h1 a hmem hq
        rw [hpat] at hle
        omega
      refine ⟨?_, ?_, ?_, ?_⟩
      · unfold QueueWaitBound
        rw [log_departure_agents]
        exact waitBound_removeAgent _ _ h1
      · rw [log_departure_agent_log]
        refine NoCriticalPreempted_append _ _ h2 (fun hfalse => ?_)
        rw [departureRow_outcome] at hfalse
        exact absurd (Option.some_injective _ hfalse) (by decide)
      · rw [log_departure_agent_log]
        refine ImpatientExact_append _ _ h3 (fun _ => ?_)
        refine ⟨a.profile_type, departureRow_profile _ _ _, ?_⟩
        rw [departureRow_wait]
        rw [hpat]
        norm_num [hwt]
      · unfold FailCountExact at h4 ⊢
        rw [log_departure_agent_log, log_departure_failed,
          filter_append_singleton, isCriticalFailureRow_departureRow]
        simp only [decide_eq_true_eq]
        rw [h4]
    · next hgt =>
      cases hok
      refine ⟨?_, h2, h3, h4⟩
      refine waitBound_updateAgent _ _ h1 ?_
      intro _
      show a.wait_time + 1 ≤ patienceOf a.profile_type
      rw [hpat]
      omega

theorem stepOneAgent_inv (m : ChargingStationModel) (id : ℕ) (m' : ChargingStationModel)
    (h : RunInv m) (hok : stepOneAgent m id = .ok m') : RunInv m' := by
  rcases hf : m.agents.find? (fun a => a.unique_id = id) with _ | a
  · simp only [stepOneAgent, hf] at hok; cases hok; exact h
  · simp only [stepOneAgent, hf] at hok
    have hmem : a ∈ m.agents := List.mem_of_find?_eq_some hf
    split at hok
    · next hch => cases hok; exact charge_inv m a hch h
    · split at hok
      · next hq => exact wait_inv m a m' hmem hq h hok
      · cases hok; exact h

theorem stepAgents_inv (ids : List ℕ) (m : ChargingStationModel)
    (m' : ChargingStationModel) (h : RunInv m)
    (hok : stepAgents m ids = .ok m') : RunInv m' := by
  induction ids generalizing m with
  | nil => cases hok; exact h
  | cons i rest ih =>
    simp only [stepAgents, Bind.bind] at hok
    rcases hs : stepOneAgent m i with e | m1
    · rw [hs] at hok; cases hok
    · rw [hs] at hok
      simp only [Except.bind] at hok
      exact ih m1 (stepOneAgent_inv m i m1 h hs) hok

theorem schedule_step_inv (m : ChargingStationModel) (m' : ChargingStationModel)
    (h : RunInv m) (hok : schedule_step m = .ok m') : RunInv m' := by
  simp only [schedule_step, Bind.bind] at hok
  rcases hs : stepAgents m (activationOrder (m.ownOrder m.steps)
      (m.agents.map (fun a => a.unique_id))) with e | m1
  · rw [hs] at hok; cases hok
  · rw [hs] at hok
    simp only [Except.bind] at hok
    cases hok
    exact RunInv_fields _ m1 rfl rfl rfl (stepAgents_inv _ m m1 h hs)

theorem update_smart_pricing_fields (m : ChargingStationModel)
    (m' : ChargingStationModel) (hok : update_smart_pricing m = .ok m') :
    m'.agents = m.agents ∧ m'.agent_log = m.agent_log ∧
      m'.kpi_failed_critical = m.kpi_failed_critical := by
  unfold update_smart_pricing at hok
  split at hok
  · cases hok; exact ⟨rfl, rfl, rfl⟩
  · rcases hsu : m.config.surge_sensitivity with _ | sf <;>
      rcases hcap : m.config.max_price_cap with _ | cap <;>
      simp only [hsu, hcap, getKey, Bind.bind, Except.bind] at hok <;>
      try cases hok
    exact ⟨rfl, rfl, rfl⟩

theorem create_status (id : ℕ) (m : ChargingStationModel) (p : TruckProfile)
    (tag : String) (np : NpState) :
    (TruckAgent.create id m p tag np).1.status = "Queuing" ∧
      (TruckAgent.create id m p tag np).1.wait_time = 0 :=
  ⟨rfl, rfl⟩

theorem chooseProfile_tolerance_none (cfg : Config) (u : ℚ) :
    (TRUCK_PROFILES (chooseProfile cfg u)).map (fun p => p.max_price_tolerance) =
      some none := by
  have hz : chooseProfile cfg u = "CRITICAL" ∨ chooseProfile cfg u = "STANDARD" ∨
      chooseProfile cfg u = "ECONOMY" := by
    unfold chooseProfile
    by_cases h1 : u < cfg.prob_critical / (cfg.prob_critical + cfg.prob_standard + cfg.prob_economy)
    · exact Or.inl (by simp [h1])
    · by_cases h2 : u < (cfg.prob_critical + cfg.prob_standard) /
          (cfg.prob_critical + cfg.prob_standard + cfg.prob_economy)
      · exact Or.inr (Or.inl (by simp [h1, h2]))
      · exact Or.inr (Or.inr (by simp [h1, h2]))
  rcases hz with h | h | h <;> rw [h] <;> rfl

theorem spawn_inv (m : ChargingStationModel) (np : NpState)
    (m' : ChargingStationModel) (np' : NpState) (h : RunInv m)
    (hok : spawn_traffic m np = .ok (m', np')) : RunInv m' := by
  obtain ⟨h1, h2, h3, h4⟩ := h
  by_cases ha : arrivalDrawn m
  · rcases hmp : TRUCK_PROFILES (chooseProfile m.config (np.draw).1) with _ | p
    · have h0 := chooseProfile_tolerance_none m.config (np.draw).1
      rw [hmp] at h0; cases h0
    · simp only [spawn_traffic, ha, if_pos, hmp, getKey, Bind.bind, Except.bind] at hok
      have hnew : WaitWithin (TruckAgent.create (m.current_id + 1) m p
          (chooseProfile m.config (np.draw).1) (np.draw).2).1 := by
        intro _
        rw [(create_status _ _ _ _ _).2]
        exact Nat.zero_le _
      split at hok
      · rcases htol : p.max_price_tolerance with _ | t
        · simp only [htol, getKey, Except.bind] at hok
          cases hok
        · simp only [htol, getKey, Except.bind] at hok
          split at hok
          · cases hok
            exact ⟨h1, h2, h3, h4⟩
          · cases hok
            refine ⟨?_, h2, h3, h4⟩
            exact waitBound_append_new _ _ h1 hnew
      · cases hok
        refine ⟨?_, h2, h3, h4⟩
        exact waitBound_append_new _ _ h1 hnew
  · simp only [spawn_traffic, ha, if_neg] at hok
    cases hok
    exact ⟨h1, h2, h3, h4⟩

theorem step_inv (m : ChargingStationModel) (np : NpState)
    (m' : ChargingStationModel) (np' : NpState) (h : RunInv m)
    (hok : ChargingStationModel.step m np = .ok (m', np')) : RunInv m' := by
  simp only [ChargingStationModel.step, Bind.bind] at hok
  rcases h1 : update_smart_pricing m with e | m1
  · rw [h1] at hok; cases hok
  · rw [h1] at hok
    simp only [Except.bind] at hok
    have hm1 : RunInv m1 := by
      obtain ⟨ha, hb, hc⟩ := update_smart_pricing_fields m m1 h1
      exact RunInv_fields m m1 ha hb hc h
    rcases h2 : spawn_traffic m1 np with e | p2
    · rw [h2] at hok; cases hok
    · rw [h2] at hok
      simp only [Except.bind] at hok
      have hm2 : RunInv p2.1 := spawn_inv m1 np p2.1 p2.2 hm1 (by rw [h2])
      set m2 := if p2.1.strategy = "FIFO" then logic_fifo p2.1
        else if p2.1.strategy = "SIRQ" then logic_sirq p2.1 else p2.1 with hm2def
      have hinv2 : RunInv m2 := by
        rw [hm2def]
        split
        · exact logic_fifo_inv _ hm2
        · split
          · exact logic_sirq_inv _ hm2
          · exact hm2
      rcases h3 : schedule_step m2 with e | m3
      · rw [h3] at hok; cases hok
      · rw [h3] at hok
        simp only [Except.bind] at hok
        cases hok
        exact RunInv_fields _ m3 rfl rfl rfl (schedule_step_inv m2 m3 hinv2 h3)

theorem runN_inv (k : ℕ) (m : ChargingStationModel) (np : NpState)
    (m' : ChargingStationModel) (np' : NpState) (h : RunInv m)
    (hok : runN m np k = .ok (m', np')) : RunInv m' := by
  induction k generalizing m np with
  | zero => cases hok; exact h
  | succ k ih =>
    simp only [runN, Bind.bind] at hok
    rcases h1 : ChargingStationModel.step m np with e | p1
    · rw [h1] at hok; cases hok
    · rw [h1] at hok
      simp only [Except.bind] at hok
      exact ih p1.1 p1.2 (step_inv m np p1.1 p1.2 h (by rw [h1])) hok

theorem init_inv (cap : ℤ) (strat : String) (seed : ℤ) (cfg : Config)
    (gC : ℤ → ℕ → ℚ) (gO : ℤ → ℕ → List ℕ) (gN : ℤ → ℕ → ℚ) :
    RunInv (ChargingStationModel.init cap strat seed cfg gC gO gN).1 := by
  refine ⟨?_, ?_, ?_, ?_⟩
  · intro a ha; cases ha
  · intro r hr; cases hr
  · intro r hr; cases hr
  · rfl

theorem runSim_inv (cap : ℤ) (strat : String) (seed : ℤ) (cfg : Config)
    (gC : ℤ → ℕ → ℚ) (gO : ℤ → ℕ → List ℕ) (gN : ℤ → ℕ → ℚ) (k : ℕ)
    (m' : ChargingStationModel) (np' : NpState)
    (hok : runSim cap strat seed cfg gC gO gN k = .ok (m', np')) : RunInv m' :=
  runN_inv k _ _ m' np' (init_inv cap strat seed cfg gC gO gN) hok

theorem spawn_smart_error (m : ChargingStationModel) (np : NpState)
    (hs : m.config.enable_smart_pricing = true) (ha : arrivalDrawn m = true) :
    spawn_traffic m np = .error (.keyError "max_price_tolerance") := by
  have h := chooseProfile_tolerance_none m.config (np.draw).1
  rcases Option.map_eq_some'.mp h with ⟨p, hp, htol⟩
  simp [spawn_traffic, ha, hs, hp, getKey, htol, Bind.bind, Except.bind]

/-! ### Claim theorems -/

/-- C1 (code_bug): the claimed invariant `free_slots + |Charging| = capacity`
is broken by the SIRQ preemption operation.  In a reachable two-tick run of
a single-charger SIRQ station (an ECONOMY agent charging at bid 11.50, a
CRITICAL challenger bidding 32.50 > 11.50 * 1.2), the preemption branch
logs the victim's departure and seats the challenger but never removes the
victim or frees a slot, leaving `free_slots = 0` and two Charging agents on
a capacity-1 station: `0 + 2 ≠ 1`. -/
theorem C1_preemption_breaks_slot_invariant :
    (finalModel (demoRun 2)).map slotInvariantHolds = some false ∧
    (finalModel (demoRun 2)).map
      (fun m => (m.charging_spots, (chargingCount m : ℤ), m.num_chargers)) =
      some (0, 2, 1) := by
  with_unfolding_all decide

/-- C2 (code_bug): the SIRQ eviction guard matches the claim (strict bid
threshold, Critical victims protected), but the claimed eviction effects do
not happen.  After the reachable preemption of the two-tick demo run, the
victim (agent 1) is still in the active set with status Charging (never
marked Departed or removed), no charger slot was freed
(`charging_spots = 0` while the challenger was also set to Charging), even
though the departure log records a Preempted outcome for it and the
preemption counter was incremented. -/
theorem C2_preemption_effects_diverge :
    (finalModel (demoRun 2)).map (fun m =>
      (m.agents.any (fun a => a.unique_id == 1 && a.status == "Charging"),
       m.agent_log.any (fun r =>
         r.any (fun c => c == ("ID", LogVal.num 1)) &&
         r.any (fun c => c == ("Outcome", LogVal.str "Preempted"))),
       m.kpi_preemptions, m.charging_spots)) = some (true, true, 1, 0) := by
  with_unfolding_all decide

/-- C3 (code_bug): a physics step never updates the cumulative energy-sold
counter (the source never writes `kpi_energy_sold`), and it credits revenue
at the configured base price `config["price_per_kwh"]`, not at the tick's
clearing price.  Concretely: after one tick of the demo run the charging
agent's state of charge rose from 10 to 10.5 (2.5 kWh added) and revenue
rose by 2.5 * 0.5 = 1.25, yet `kpi_energy_sold` is still 0; and in general
`charge` leaves `kpi_energy_sold` unchanged and adds
`power/60 * efficiency * price_per_kwh` to revenue, with no dependence on
`current_price`. -/
theorem C3_energy_sold_never_updated :
    ((finalModel (demoRun 1)).map
       (fun m => (m.kpi_energy_sold, m.kpi_revenue, m.agents.map (fun a => a.soc))) =
      some (0, 5/4, [21/2])) ∧
    (∀ (m : ChargingStationModel) (a : TruckAgent),
      (charge m a).kpi_energy_sold = m.kpi_energy_sold) ∧
    (∀ (m : ChargingStationModel) (a : TruckAgent),
      (charge m a).kpi_revenue =
        m.kpi_revenue + a.config.charger_power / 60 *
          (if a.soc < 80 then (1 : ℚ) else 1/2) * a.config.price_per_kwh) := by
  refine ⟨by with_unfolding_all decide, ?_, ?_⟩
  · intro m a
    simp only [charge, log_departure]
    split <;> (try split) <;> rfl
  · intro m a
    simp only [charge, log_departure]
    split <;> (try split) <;> rfl

/-- C4 (code_bug): the balking branch is dead code.  Every successful
arrival step leaves the balked counter unchanged (so no prospective agent
ever balks), because when smart pricing is enabled the arrival process
subscripts the sampled profile's `max_price_tolerance` key — which no
shipped profile defines — and raises a `KeyError` before the balking
comparison can run: stepping a smart-pricing station whose surge parameters
are supplied and whose first tick draws an arrival raises exactly that
`KeyError` instead of balking. -/
theorem C4_balking_never_occurs :
    (∀ (m : ChargingStationModel) (np : NpState) (m' : ChargingStationModel)
      (np' : NpState), spawn_traffic m np = .ok (m', np') →
        m'.kpi_balked_agents = m.kpi_balked_agents) ∧
    errorOf (ChargingStationModel.step surgeInit.1 surgeInit.2) =
      some (.keyError "max_price_tolerance") := by
  refine ⟨?_, by with_unfolding_all decide⟩
  intro m np m' np' h
  by_cases ha : arrivalDrawn m
  · by_cases hs : m.config.enable_smart_pricing = true
    · rw [spawn_smart_error m np hs ha] at h; cases h
    · rcases hmp : TRUCK_PROFILES (chooseProfile m.config (np.draw).1) with _ | p
      · have h2 := chooseProfile_tolerance_none m.config (np.draw).1
        rw [hmp] at h2; cases h2
      · simp only [Bool.not_eq_true] at hs
        simp [spawn_traffic, ha, hmp, getKey, Bind.bind, Except.bind, hs] at h
        rcases h with ⟨h1, h2⟩
        subst h1
        rfl
  · simp [spawn_traffic, ha] at h
    rcases h with ⟨h1, h2⟩
    subst h1
    rfl

/-- Witness for C4: a concrete successful arrival step (a quiet tick whose
coin misses the arrival probability) on which the theorem's first conjunct
applies, its `spawn_traffic … = .ok …` hypothesis discharged by reduction. -/
theorem C4_balking_never_occurs_witness :
    quietInit.1.kpi_balked_agents = quietInit.1.kpi_balked_agents :=
  C4_balking_never_occurs.1 quietInit.1 quietInit.2 quietInit.1 quietInit.2
    (by with_unfolding_all rfl)

/-- C5 (corrected, counterexample): construction with capacity 0 and an
unrecognized policy tag succeeds and produces a usable station — it even
steps three ticks without error — so construction does *not* fail on
capacity < 1 or on an unknown policy tag. -/
theorem C5_counterexample_invalid_construction_succeeds :
    invalidInit.1.running = true ∧ invalidInit.1.num_chargers = 0 ∧
    invalidInit.1.strategy = "TELEPATHY" ∧
    (runN invalidInit.1 invalidInit.2 3).isOk = true := by
  with_unfolding_all decide

/-- C5 (corrected, amended): the constructor performs no validation at all:
for every capacity (however small), every policy tag and every config it
returns a running station recording exactly the given arguments. -/
theorem C5_amended_construction_never_fails (n : ℤ) (s : String) (seed : ℤ)
    (cfg : Config) (gC : ℤ → ℕ → ℚ) (gO : ℤ → ℕ → List ℕ) (gN : ℤ → ℕ → ℚ) :
    (ChargingStationModel.init n s seed cfg gC gO gN).1.running = true ∧
    (ChargingStationModel.init n s seed cfg gC gO gN).1.num_chargers = n ∧
    (ChargingStationModel.init n s seed cfg gC gO gN).1.strategy = s ∧
    (ChargingStationModel.init n s seed cfg gC gO gN).1.charging_spots = n :=
  ⟨rfl, rfl, rfl, rfl⟩

/-- C6 (corrected, counterexample): the tick snapshot has exactly six
columns — tick index (`Step`), cumulative revenue, queue length, strategy,
clearing price and balked count — and *no* active-charger-count column: at
a state with exactly one Charging agent, no cell of the logged row even
holds the value 1. -/
theorem C6_counterexample_no_active_charger_column :
    chargingCount mC6 = 1 ∧
    (systemRow mC6).map Prod.fst =
      ["Step", "Total_Revenue", "Queue_Length", "Strategy", "Current_Price",
       "Balked_Agents"] ∧
    (∀ c ∈ systemRow mC6, c.2 ≠ LogVal.num (chargingCount mC6 : ℚ)) := by
  with_unfolding_all decide

/-- C6 (corrected, amended): every tick-snapshot row appended to the
timeline log contains exactly the columns tick index, cumulative revenue,
queue length, strategy, clearing price and cumulative balked count — the
active charger count is not among them. -/
theorem C6_amended_tick_row_columns (m : ChargingStationModel) :
    (systemRow m).map Prod.fst =
      ["Step", "Total_Revenue", "Queue_Length", "Strategy", "Current_Price",
       "Balked_Agents"] ∧
    (log_system_state m).system_log = m.system_log ++ [systemRow m] :=
  ⟨rfl, rfl⟩

/-- C7 (confirmed): for every capacity, policy tag, seed, configuration,
random streams and run length, no departure record of the run carries
outcome Preempted together with profile CRITICAL: the SIRQ preemption guard
`victim.profile_type != "CRITICAL"` protects Critical agents, and no other
operation logs a Preempted departure. -/
theorem C7_no_critical_preempted (cap : ℤ) (strat : String) (seed : ℤ)
    (cfg : Config) (gC : ℤ → ℕ → ℚ) (gO : ℤ → ℕ → List ℕ) (gN : ℤ → ℕ → ℚ)
    (k : ℕ) :
    NoCriticalPreempted (agentLogOf (runSim cap strat seed cfg gC gO gN k)) := by
  rcases hr : runSim cap strat seed cfg gC gO gN k with e | ⟨m, np⟩
  · intro r hr'; cases hr'
  · exact (runSim_inv cap strat seed cfg gC gO gN k m np hr).2.1

/-- C8 (confirmed): in every run, every departure record with outcome
LeftImpatient carries a wait time strictly greater than its profile's
patience limit and at most that limit plus one tick (it is exactly
limit + 1), and the critical-failure counter equals the number of logged
critical failures (impatient or preempted departures of CRITICAL agents) —
so each impatient departure of a Critical agent bumps it by exactly one. -/
theorem C8_patience_bound_and_critical_failures (cap : ℤ) (strat : String)
    (seed : ℤ) (cfg : Config) (gC : ℤ → ℕ → ℚ) (gO : ℤ → ℕ → List ℕ)
    (gN : ℤ → ℕ → ℚ) (k : ℕ) :
    (∀ r ∈ agentLogOf (runSim cap strat seed cfg gC gO gN k),
      rowStr r "Outcome" = some "Left (Impatient)" →
        ∃ tag w, rowStr r "Profile" = some tag ∧ rowNum r "Wait_Time" = some w ∧
          (patienceOf tag : ℚ) < w ∧ w ≤ (patienceOf tag : ℚ) + 1) ∧
    failedCriticalOf (runSim cap strat seed cfg gC gO gN k) =
      ((agentLogOf (runSim cap strat seed cfg gC gO gN k)).filter
        isCriticalFailureRow).length := by
  rcases hr : runSim cap strat seed cfg gC gO gN k with e | ⟨m, np⟩
  · refine ⟨?_, rfl⟩
    intro r hr'
    cases hr'
  · obtain ⟨_, _, h3, h4⟩ := runSim_inv cap strat seed cfg gC gO gN k m np hr
    refine ⟨?_, h4⟩
    intro r hmem hout
    obtain ⟨tag, hprof, hwait⟩ := h3 r hmem hout
    exact ⟨tag, (patienceOf tag : ℚ) + 1, hprof, hwait, by linarith, le_refl _⟩

/-- C9 (corrected, counterexample): two stations constructed with identical
(capacity, policy, seed, config) and stepped the same number of ticks can
produce different departure *and* tick tables when they share one Python
process, because `np.random.seed` seeds a process-global stream: here the
second station is stepped after the first one consumed draws 0-7, so it
reads draws 8-15 and sees different profile/value-of-time samples (no
preemption happens in the second run, one happens in the first). -/
theorem C9_counterexample_shared_numpy_stream :
    (finalModel c9RunFirst).map (fun m => m.agent_log) ≠
      (finalModel c9RunSecond).map (fun m => m.agent_log) ∧
    (finalModel c9RunFirst).map (fun m => m.system_log) ≠
      (finalModel c9RunSecond).map (fun m => m.system_log) ∧
    c9RunFirst.isOk = true ∧ c9RunSecond.isOk = true := by
  with_unfolding_all decide

/-- C9 (corrected, amended): two runs constructed with identical
(capacity, policy, seed, config) produce identical departure and tick
tables element-for-element *provided* each run consumes the process-global
numpy stream from its own construction's `np.random.seed` reset — i.e. the
runs are executed in isolation, with no other numpy use interleaved between
a run's construction and its last tick. -/
theorem C9_amended_isolated_runs_deterministic (c₁ c₂ : ℤ) (s₁ s₂ : String)
    (sd₁ sd₂ : ℤ) (cf₁ cf₂ : Config) (gC : ℤ → ℕ → ℚ) (gO : ℤ → ℕ → List ℕ)
    (gN : ℤ → ℕ → ℚ) (k : ℕ) (h1 : c₁ = c₂) (h2 : s₁ = s₂) (h3 : sd₁ = sd₂)
    (h4 : cf₁ = cf₂) :
    agentLogOf (runSim c₁ s₁ sd₁ cf₁ gC gO gN k) =
      agentLogOf (runSim c₂ s₂ sd₂ cf₂ gC gO gN k) ∧
    systemLogOf (runSim c₁ s₁ sd₁ cf₁ gC gO gN k) =
      systemLogOf (runSim c₂ s₂ sd₂ cf₂ gC gO gN k) := by
  subst h1; subst h2; subst h3; subst h4
  exact ⟨rfl, rfl⟩

/-- Witness for the amended C9, applied to the concrete demo parameters. -/
theorem C9_amended_isolated_runs_deterministic_witness :
    agentLogOf (runSim 1 "SIRQ" 42 DEFAULT_CONFIG gZero gEmpty gNpDemo 1) =
      agentLogOf (runSim 1 "SIRQ" 42 DEFAULT_CONFIG gZero gEmpty gNpDemo 1) ∧
    systemLogOf (runSim 1 "SIRQ" 42 DEFAULT_CONFIG gZero gEmpty gNpDemo 1) =
      systemLogOf (runSim 1 "SIRQ" 42 DEFAULT_CONFIG gZero gEmpty gNpDemo 1) :=
  C9_amended_isolated_runs_deterministic 1 1 "SIRQ" "SIRQ" 42 42 DEFAULT_CONFIG
    DEFAULT_CONFIG gZero gEmpty gNpDemo 1 rfl rfl rfl rfl

/-- C10 (confirmed): enabling smart pricing makes `step` non-total.  No
shipped profile defines the `max_price_tolerance` key; the default config
defines neither `surge_sensitivity` nor `max_price_cap`; a station whose
user config only enables the flag raises `KeyError("surge_sensitivity")` in
its first pricing update; and for every state with smart pricing enabled
whose tick draws an arrival, the arrival process raises
`KeyError("max_price_tolerance")` instead of producing a balk decision. -/
theorem C10_smart_pricing_reaches_key_errors :
    ((TRUCK_PROFILES "CRITICAL").map (fun p => p.max_price_tolerance) = some none ∧
     (TRUCK_PROFILES "STANDARD").map (fun p => p.max_price_tolerance) = some none ∧
     (TRUCK_PROFILES "ECONOMY").map (fun p => p.max_price_tolerance) = some none) ∧
    (DEFAULT_CONFIG.surge_sensitivity = none ∧ DEFAULT_CONFIG.max_price_cap = none) ∧
    errorOf (ChargingStationModel.step smartOnlyInit.1 smartOnlyInit.2) =
      some (.keyError "surge_sensitivity") ∧
    (∀ (m : ChargingStationModel) (np : NpState),
      m.config.enable_smart_pricing = true → arrivalDrawn m = true →
        spawn_traffic m np = .error (.keyError "max_price_tolerance")) := by
  refine ⟨by with_unfolding_all decide, ⟨rfl, rfl⟩, by with_unfolding_all decide, ?_⟩
  intro m np hs ha
  exact spawn_smart_error m np hs ha

/-- Witness for C10, applying its universally quantified part to a concrete
smart-pricing station whose first tick draws an arrival. -/
theorem C10_smart_pricing_reaches_key_errors_witness :
    spawn_traffic surgeInit.1 surgeInit.2 = .error (.keyError "max_price_tolerance") :=
  C10_smart_pricing_reaches_key_errors.2.2.2 surgeInit.1 surgeInit.2
    (by with_unfolding_all decide) (by with_unfolding_all decide)
